import Mathlib

/-!
# Verification of the multi-source RAG quality pipeline

Shallow embedding of the retrieval-fusion-validation core of the repository:
`backend/services/quality_service.py` (QualityAssuranceService),
`backend/services/multi_source_rag_service.py` (MultiSourceRAGService) and
`backend/api/query.py` (advanced multi-source post-processing).

Conventions of the embedding:
* Python floats are modelled as `ℚ`; every constant in the modelled code is a
  short decimal, so rational arithmetic coincides with the intended values.
* Python's `re.search` is only ever used here with patterns that are either a
  literal string or two literals joined by `.*`; these are modelled by `Pat`.
  `.*` does not cross a newline, which the `seq` matcher respects.
* Python's `\w` word character class is modelled for the character sets the
  program actually uses: ASCII alphanumerics, underscore, and Hangul
  syllables (U+AC00..U+D7A3).
* Python `set` becomes `Finset String`; dict-shaped JSON records become
  structures, with the `"content" in source` test modelled by `Option`.
-/

namespace RagCore

/-- Does `needle` occur as a contiguous sublist of `hay`?  Model of Python
substring containment (`needle in hay`, `re.search` of a literal). -/
def containsL (hay needle : List Char) : Bool :=
  match hay with
  | [] => needle.isEmpty
  | _ :: t => needle.isPrefixOf hay || containsL t needle

/-- Model of `re.search("A.*B", hay)` for literals `A`, `B` that contain no
newline: some occurrence of `A` is followed, with no intervening newline, by
an occurrence of `B`. -/
def seqMatch (hay a b : List Char) : Bool :=
  match hay with
  | [] => false
  | _ :: t =>
    (a.isPrefixOf hay && containsL ((hay.drop a.length).takeWhile (· ≠ '\n')) b)
      || seqMatch t a b

/-- ASCII lower-casing of one character, the effect of Python's
`.lower()` on every character the program manipulates (Hangul has no
case). -/
def lowerChar (c : Char) : Char :=
  if 'A' ≤ c ∧ c ≤ 'Z' then Char.ofNat (c.toNat + 32) else c

/-- ASCII upper-casing of one character (Python `.upper()`). -/
def upperChar (c : Char) : Char :=
  if 'a' ≤ c ∧ c ≤ 'z' then Char.ofNat (c.toNat - 32) else c

/-- Lower-case a character list. -/
def lowerL (l : List Char) : List Char := l.map lowerChar

/-- Python `.strip()`: drop whitespace from both ends. -/
def trimL (l : List Char) : List Char :=
  ((l.dropWhile Char.isWhitespace).reverse.dropWhile Char.isWhitespace).reverse

/-- The shapes of regular expression actually used by the quality service:
a literal, or two literals joined by `.*`. -/
inductive Pat where
  | lit (s : String)
  | seq (a b : String)
deriving DecidableEq, Repr

/-- Match a pattern against a character list (case-sensitive). -/
def patSearchL (p : Pat) (hay : List Char) : Bool :=
  match p with
  | .lit s => containsL hay s.data
  | .seq a b => seqMatch hay a.data b.data

/-- Lower-case the literals of a pattern. -/
def lowerPat : Pat → Pat
  | .lit s => .lit ⟨lowerL s.data⟩
  | .seq a b => .seq ⟨lowerL a.data⟩ ⟨lowerL b.data⟩

/-- Model of `re.search(p, hay, re.IGNORECASE)`. -/
def patSearchCI (p : Pat) (hay : String) : Bool :=
  patSearchL (lowerPat p) (lowerL hay.data)

/-- Model of Python's `in` for strings (case-sensitive substring test). -/
def strContains (hay needle : String) : Bool :=
  containsL hay.data needle.data

/-- Word characters of the `\w` class, restricted to the alphabets used by
the program: ASCII alphanumerics, underscore, Hangul syllables. -/
def isWordChar (c : Char) : Bool :=
  c.isAlphanum || c = '_' || (0xAC00 ≤ c.toNat && c.toNat ≤ 0xD7A3)

/-- Split a character list into its maximal runs of word characters:
the matches of `\b\w+\b`. -/
def wordRuns : List Char → List Char → List (List Char)
  | [], acc => if acc.isEmpty then [] else [acc.reverse]
  | c :: rest, acc =>
    if isWordChar c then wordRuns rest (c :: acc)
    else if acc.isEmpty then wordRuns rest []
    else acc.reverse :: wordRuns rest []

/-- Model of `set(re.findall(r'\b\w{3,}\b', s.lower()))`: the distinct
maximal word runs of length at least 3 of the lower-cased string, as a
duplicate-free list (a Python `set` is used only for membership,
cardinality and emptiness). -/
def wordList (s : String) : List String :=
  (((wordRuns (lowerL s.data) []).filter (fun r => 3 ≤ r.length)).map
    (fun r => String.mk r)).dedup

/-- Set union on duplicate-free lists (Python `set.update`). -/
def listUnion (a b : List String) : List String :=
  a ++ b.filter (fun x => !(a.contains x))

/-- `QualityAssuranceService.boilerplate_patterns`. -/
def boilerplate_patterns : List Pat :=
  [.lit "도와드릴 수 있", .seq "어떻게" "도와", .seq "무엇" "원하시",
   .lit "As an AI", .lit "I\x27m an AI", .lit "assist you",
   .seq "죄송합니다" "도와드리지", .seq "더 구체적으로" "말씀해"]

/-- `QualityAssuranceService.hallucination_indicators`. -/
def hallucination_indicators : List Pat :=
  [.seq "확실하지" "않지만", .seq "추측" "입니다", .lit "아마도",
   .lit "것 같습니다", .lit "생각됩니다", .seq "추정" "됩니다"]

/-- `QualityAssuranceService.confidence_keywords["high"]`. -/
def confidence_keywords_high : List String :=
  ["정확히", "명시되어", "문서에 따르면", "사양서에서"]

/-- `QualityAssuranceService.confidence_keywords["medium"]`. -/
def confidence_keywords_medium : List String :=
  ["일반적으로", "보통", "대체로"]

/-- `QualityAssuranceService.confidence_keywords["low"]`. -/
def confidence_keywords_low : List String :=
  ["가능성이", "추정", "예상", "것으로 보임"]

/-- A source dictionary as passed to `validate_answer`: the only key the
service reads is `content`, whose presence is modelled by `Option`. -/
structure QSource where
  content : Option String
deriving DecidableEq, Repr

/-- Result of `_validate_basic_answer`. -/
structure BasicResult where
  is_valid : Bool
  issues : List String
  length_ok : Bool
  not_na : Bool
  not_boilerplate : Bool
deriving DecidableEq, Repr

/-- The three hallucination risk levels. -/
inductive RiskLevel where
  | low
  | medium
  | high
deriving DecidableEq, Repr

/-- Result of `_check_hallucination`. -/
structure HallucinationResult where
  risk_level : RiskLevel
  indicators_found : List Pat
  risk_score : ℚ
deriving DecidableEq, Repr

/-- Result of `_validate_source_consistency`. -/
structure ConsistencyResult where
  is_consistent : Bool
  consistency_score : ℚ
  source_coverage : ℚ
deriving DecidableEq, Repr

/-- Confidence keyword levels. -/
inductive ConfLevel where
  | low
  | medium
  | high
deriving DecidableEq, Repr

/-- Result of `_analyze_confidence_keywords`. -/
structure ConfidenceResult where
  confidence_level : ConfLevel
  found_high : List String
  found_medium : List String
  found_low : List String
deriving DecidableEq, Repr

/-- `QualityAssuranceService._validate_basic_answer`. -/
def validate_basic_answer (answer : String) : BasicResult :=
  let lengthBad := answer = "" ∨ (trimL answer.data).length < 5
  let naBad := (trimL answer.data).map upperChar = "N/A".data
  let boiler := boilerplate_patterns.any (fun p => patSearchCI p answer)
  { is_valid := !(decide lengthBad) && !(decide naBad) && !boiler
    issues :=
      (if lengthBad then ["답변이 너무 짧거나 비어있음"] else []) ++
      (if naBad then ["정보를 찾을 수 없음"] else []) ++
      (if boiler then ["일반적인 AI 응답 템플릿 감지"] else [])
    length_ok := !(decide lengthBad)
    not_na := !(decide naBad)
    not_boilerplate := !boiler }

/-- `QualityAssuranceService._check_hallucination`: each matching indicator
pattern adds 0.2 to the risk score; the level is high at ≥ 0.6, medium at
≥ 0.3, else low. -/
def check_hallucination (answer : String) : HallucinationResult :=
  let found := hallucination_indicators.filter (fun p => patSearchCI p answer)
  let score : ℚ := found.length * (2 / 10 : ℚ)
  { risk_level :=
      if (6 / 10 : ℚ) ≤ score then .high
      else if (3 / 10 : ℚ) ≤ score then .medium
      else .low
    indicators_found := found
    risk_score := score }

/-- The union of the word sets of the `content` fields present among the
sources (contents are lower-cased inside `wordList`, as in the Python
code). -/
def sourceWords (sources : List QSource) : List String :=
  sources.foldl
    (fun acc s =>
      match s.content with
      | some c => listUnion acc (wordList c)
      | none => acc) []

/-- `QualityAssuranceService._validate_source_consistency`.  Empty source
list forces inconsistency with score 0.  Otherwise the coverage
`|answer_words ∩ source_words| / |answer_words|` is computed only when both
word sets are non-empty, and the answer is flagged inconsistent (score set
to the coverage) only when that coverage is < 0.3. -/
def validate_source_consistency (answer : String) (sources : List QSource) :
    ConsistencyResult :=
  if sources.isEmpty then
    { is_consistent := false, consistency_score := 0, source_coverage := 0 }
  else
    let aw := wordList answer
    let sw := sourceWords sources
    if !aw.isEmpty && !sw.isEmpty then
      let coverage : ℚ :=
        ((aw.filter (fun w => sw.contains w)).length : ℚ) / (aw.length : ℚ)
      if coverage < (3 / 10 : ℚ) then
        { is_consistent := false, consistency_score := coverage,
          source_coverage := coverage }
      else
        { is_consistent := true, consistency_score := 1,
          source_coverage := coverage }
    else
      { is_consistent := true, consistency_score := 1, source_coverage := 0 }

/-- `QualityAssuranceService._analyze_confidence_keywords`: keyword hit lists
per level; level is high if any high keyword occurs, else low if any low
keyword occurs, else medium. -/
def analyze_confidence_keywords (answer : String) : ConfidenceResult :=
  let fh := confidence_keywords_high.filter (fun k => strContains answer k)
  let fm := confidence_keywords_medium.filter (fun k => strContains answer k)
  let fl := confidence_keywords_low.filter (fun k => strContains answer k)
  { confidence_level :=
      if !fh.isEmpty then .high
      else if !fl.isEmpty then .low
      else .medium
    found_high := fh, found_medium := fm, found_low := fl }

/-- `QualityAssuranceService._calculate_quality_score`: fixed weighted
composite, clamped from above at 1. -/
def calculate_quality_score (basic : BasicResult) (hall : HallucinationResult)
    (source : ConsistencyResult) (conf : ConfidenceResult) : ℚ :=
  let s1 : ℚ := if basic.is_valid then 4 / 10 else 0
  let s2 : ℚ :=
    match hall.risk_level with
    | .low => 3 / 10
    | .medium => 15 / 100
    | .high => 0
  let s3 : ℚ := (2 / 10) * source.consistency_score
  let s4 : ℚ :=
    match conf.confidence_level with
    | .high => 1 / 10
    | .medium => 5 / 100
    | .low => 0
  min 1 (s1 + s2 + s3 + s4)

/-- Full result of `QualityAssuranceService.validate_answer`, with the
`validation_details` sub-dicts as named fields. -/
structure ValidationResult where
  is_valid : Bool
  quality_score : ℚ
  issues : List String
  suggestions : List String
  confidence_adjusted : ℚ
  basic : BasicResult
  hallucination : HallucinationResult
  source_consistency : ConsistencyResult
  confidence_keywords : ConfidenceResult
deriving DecidableEq, Repr

/-- `QualityAssuranceService._generate_suggestions`. -/
def generate_suggestions (quality_score : ℚ) (hall : HallucinationResult)
    (source : ConsistencyResult) (confidence_adjusted : ℚ) : List String :=
  (if quality_score < 5 / 10 then
    ["답변 품질이 낮습니다. 더 구체적인 정보가 필요합니다."] else []) ++
  (if hall.risk_level = .high then
    ["추측성 표현을 줄이고 확실한 정보만 제공하세요."] else []) ++
  (if !source.is_consistent then
    ["소스 문서의 내용을 더 정확히 반영하세요."] else []) ++
  (if confidence_adjusted < 5 / 10 then
    ["신뢰도가 낮습니다. 더 정확한 소스가 필요합니다."] else [])

/-- `QualityAssuranceService.validate_answer`: runs the four checks, applies
the ×0.5 penalty for high hallucination risk and then the ×0.7 penalty for
source inconsistency to the caller-supplied confidence, and computes the
composite quality score.  The `question` argument is unused by the Python
code as well. -/
def validate_answer (question answer : String) (sources : List QSource)
    (confidence : ℚ) : ValidationResult :=
  let basic := validate_basic_answer answer
  let hall := check_hallucination answer
  let srcCons := validate_source_consistency answer sources
  let confKw := analyze_confidence_keywords answer
  let c1 : ℚ := if hall.risk_level = .high then confidence * (5 / 10) else confidence
  let c2 : ℚ := if !srcCons.is_consistent then c1 * (7 / 10) else c1
  let qs := calculate_quality_score basic hall srcCons confKw
  { is_valid := basic.is_valid
    quality_score := qs
    issues :=
      (if basic.is_valid then [] else basic.issues) ++
      (if hall.risk_level = .high then ["높은 환각 위험 감지"] else []) ++
      (if !srcCons.is_consistent then ["소스와의 일치성 부족"] else [])
    suggestions := generate_suggestions qs hall srcCons c2
    confidence_adjusted := c2
    basic := basic
    hallucination := hall
    source_consistency := srcCons
    confidence_keywords := confKw }

/-- `DataSource` enum of `request_models.py`. -/
inductive DataSource where
  | documents
  | database
  | web_search
deriving DecidableEq, Repr

/-- `MultiSourceInfo` of `response_models.py`: one normalized evidence item.
`metadata : Dict[str, Any]` is modelled as an association list of strings,
carried opaquely by the modelled code; the Python field `section` is named
`section_name` here because `section` is reserved in Lean. -/
structure MultiSourceInfo where
  source_type : DataSource
  source_id : String
  content : String
  relevance_score : ℚ
  metadata : List (String × String)
  document_name : Option String
  page_number : Option Nat
  section_name : Option String
  url : Option String
  web_source : Option String
deriving DecidableEq, Repr

/-- `SourceSearchResult` of `response_models.py`. -/
structure SourceSearchResult where
  source_type : DataSource
  results : List MultiSourceInfo
  search_time_ms : Nat
  total_found : Nat
  status : String
  error_message : Option String
deriving DecidableEq, Repr

/-- `UserRole` enum of `request_models.py`. -/
inductive UserRole where
  | engineer
  | quality
  | sales
  | support
deriving DecidableEq, Repr

/-- `MultiSourceQueryRequest` of `request_models.py` (the `document_filter`
dict, never inspected by the modelled code, is carried as an association
list). -/
structure MultiSourceQueryRequest where
  question : String
  user_role : UserRole
  data_sources : List DataSource
  document_filter : Option (List (String × String))
  top_k_per_source : Nat
  enable_web_search : Bool
  web_search_query : Option String
  combine_results : Bool
deriving DecidableEq, Repr

/-- `MultiSourceQueryResponse` of `response_models.py`; the
`sources_by_type` dict is modelled as an insertion-ordered association
list. -/
structure MultiSourceQueryResponse where
  answer : String
  confidence : ℚ
  sources : List MultiSourceInfo
  query_time_ms : Nat
  model_used : String
  sources_by_type : List (DataSource × Nat)
  search_strategy : String
  total_sources_searched : Nat
deriving DecidableEq, Repr

/-- Outcome of one per-source search task as observed by
`asyncio.gather(..., return_exceptions=True)`: either the
`SourceSearchResult` the adapter returned, or the exception it raised,
carried as its string description. -/
inductive TaskOutcome where
  | ok (r : SourceSearchResult)
  | exn (msg : String)
deriving DecidableEq, Repr

/-- The exception-to-result conversion done per position in
`MultiSourceRAGService._execute_multi_source_search`: an exception at
position `i` becomes a failed `SourceSearchResult` for
`request.data_sources[i]` with empty results and `search_time_ms = 0`. -/
def processOutcome (source : DataSource) (o : TaskOutcome) : SourceSearchResult :=
  match o with
  | .ok r => r
  | .exn msg =>
    { source_type := source, results := [], search_time_ms := 0,
      total_found := 0, status := "failed", error_message := some msg }

/-- `MultiSourceRAGService._execute_multi_source_search`: one task per
requested source (every `DataSource` constructor dispatches to an adapter,
so no source is skipped), gathered in request order; exceptional outcomes
are converted positionally.  The adapters run outside the model, so the
task outcomes are a parameter, one per requested source. -/
def execute_multi_source_search (sources : List DataSource)
    (outcomes : List TaskOutcome) : List SourceSearchResult :=
  (sources.zip outcomes).map (fun p => processOutcome p.1 p.2)

/-- Python dict assignment `d[k] = v` on an insertion-ordered association
list: replace the value at an existing key, else append. -/
def upsert (l : List (DataSource × Nat)) (k : DataSource) (v : Nat) :
    List (DataSource × Nat) :=
  match l with
  | [] => [(k, v)]
  | (k', v') :: t => if k' = k then (k, v) :: t else (k', v') :: upsert t k v

/-- One iteration of the collection loop at the top of
`MultiSourceRAGService._combine_and_generate_answer`: a `status ==
"success"` result appends its evidence and records its per-type count;
any other result is skipped. -/
def collectStep (acc : List MultiSourceInfo × List (DataSource × Nat))
    (r : SourceSearchResult) : List MultiSourceInfo × List (DataSource × Nat) :=
  if r.status = "success" then
    (acc.1 ++ r.results, upsert acc.2 r.source_type r.results.length)
  else acc

/-- The collection loop itself: evidence of `status == "success"` results is
concatenated, and `sources_by_type` gets an entry (per-type evidence count)
for success results only. -/
def collectSources (results : List SourceSearchResult) :
    List MultiSourceInfo × List (DataSource × Nat) :=
  results.foldl collectStep ([], [])

/-- Descending comparison on `relevance_score` used by
`all_sources.sort(key=lambda x: x.relevance_score, reverse=True)`. -/
def scoreDesc (a b : MultiSourceInfo) : Bool :=
  decide (b.relevance_score ≤ a.relevance_score)

/-- `MultiSourceRAGService._combine_and_generate_answer`.  The prompt text
and the LLM call are external (the generated `answer` and the `model_used`
identifier are parameters); everything else is the Python code: collect
success evidence, sort by relevance descending (stable), take the top 10,
validate the answer against those sources with raw confidence 0.8, and
assemble the response with the hard-coded `search_strategy = "balanced"`
and `query_time_ms = 0` (overwritten by the caller). -/
def combine_and_generate_answer (request : MultiSourceQueryRequest)
    (search_results : List SourceSearchResult) (answer : String)
    (model_used : String) : MultiSourceQueryResponse :=
  let collected := collectSources search_results
  let all_sources := collected.1
  let sources_by_type := collected.2
  let sorted := all_sources.mergeSort scoreDesc
  let top_sources := sorted.take 10
  let validation := validate_answer request.question answer
    (top_sources.map (fun s => { content := some s.content }))
    (8 / 10)
  { answer := answer
    confidence := validation.confidence_adjusted
    sources := top_sources
    query_time_ms := 0
    model_used := model_used
    sources_by_type := sources_by_type
    search_strategy := "balanced"
    total_sources_searched := all_sources.length }

/-- `MultiSourceRAGService._determine_search_strategy`. -/
def determine_search_strategy (request : MultiSourceQueryRequest) : String :=
  if request.data_sources.length = 1 then "fast"
  else if DataSource.web_search ∈ request.data_sources then "comprehensive"
  else if request.top_k_per_source ≤ 3 then "fast"
  else "balanced"

/-- `SourceWeight` of `request_models.py`. -/
structure SourceWeight where
  documents : ℚ
  database : ℚ
  web_search : ℚ
deriving DecidableEq, Repr

/-- The `weight_map` of `query.py::_apply_source_weights`; every
`DataSource` constructor has an entry, so the `in weight_map` guard in the
loop is always true. -/
def weightFor (w : SourceWeight) : DataSource → ℚ
  | .documents => w.documents
  | .database => w.database
  | .web_search => w.web_search

/-- `query.py::_apply_source_weights`: multiply each item's
`relevance_score` by its source's weight (in place, modelled as a map
leaving every other field unchanged), then re-sort descending. -/
def apply_source_weights (w : SourceWeight) (sources : List MultiSourceInfo) :
    List MultiSourceInfo :=
  ((sources.map
      (fun s => { s with relevance_score := s.relevance_score * weightFor w s.source_type })).mergeSort
    scoreDesc)

/-- The post-processing of `query.py::advanced_multi_source_query` after the
basic multi-source query returns: apply optional source weights, then (only
when the threshold is positive) drop sources with `relevance_score` below
the threshold. -/
def advanced_post_process (source_weights : Option SourceWeight)
    (min_relevance_threshold : ℚ) (response : MultiSourceQueryResponse) :
    MultiSourceQueryResponse :=
  let resp1 :=
    match source_weights with
    | some w => { response with sources := apply_source_weights w response.sources }
    | none => response
  if 0 < min_relevance_threshold then
    { resp1 with sources :=
        resp1.sources.filter (fun s => min_relevance_threshold ≤ s.relevance_score) }
  else resp1

/-- `TestCase` as consumed by `run_selftest`: a test-case dict with the
`.get` defaults of the Python code already applied (`question`/`answer`
default `""`, `sources` default `[]`, `confidence` default 0.5,
`expected_validation` default `True`). -/
structure TestCase where
  question : String
  expected_answer : String
  actual_answer : String
  expected_validation : Bool
  sources : List QSource
  confidence : ℚ
deriving DecidableEq, Repr

/-- One entry of `run_selftest`'s `test_results`. -/
structure TestResult where
  test_id : Nat
  passed : Bool
  validation : ValidationResult
deriving DecidableEq, Repr

/-- Aggregate result of `QualityAssuranceService.run_selftest` (the
timestamp field is wall-clock and not modelled). -/
structure SelftestResults where
  total_tests : Nat
  passed : Nat
  failed : Nat
  test_results : List TestResult
  overall_score : ℚ
deriving DecidableEq, Repr

/-- The pass judgement of `run_selftest`: for an expected-valid case, pass
iff the validation is valid with quality score ≥ 0.5; for an
expected-invalid case, pass iff it is invalid or scores < 0.5. -/
def selftestPass (tc : TestCase) (v : ValidationResult) : Bool :=
  if tc.expected_validation then
    v.is_valid && decide ((5 / 10 : ℚ) ≤ v.quality_score)
  else
    !v.is_valid || decide (v.quality_score < (5 / 10 : ℚ))

/-- `QualityAssuranceService.run_selftest`: validate every case, judge each
with `selftestPass` (`test_id` is the 1-based position), count passes and
failures, and set `overall_score = passed / total` (0 for an empty list). -/
def run_selftest (test_cases : List TestCase) : SelftestResults :=
  let test_results := test_cases.mapIdx (fun i tc =>
    let v := validate_answer tc.question tc.actual_answer tc.sources tc.confidence
    { test_id := i + 1, passed := selftestPass tc v, validation := v })
  let passedCount := (test_results.filter (fun t => t.passed)).length
  let failedCount := (test_results.filter (fun t => !t.passed)).length
  { total_tests := test_cases.length
    passed := passedCount
    failed := failedCount
    test_results := test_results
    overall_score :=
      if 0 < test_cases.length then (passedCount : ℚ) / (test_cases.length : ℚ)
      else 0 }

/-- A concrete evidence item used to instantiate the theorems below. -/
def sampleItem : MultiSourceInfo :=
  { source_type := .documents, source_id := "d1", content := "voltage data",
    relevance_score := 9 / 10, metadata := [], document_name := some "doc.pdf",
    page_number := some 1, section_name := none, url := none,
    web_source := none }

/-- A concrete successful document search result. -/
def succDoc : SourceSearchResult :=
  { source_type := .documents, results := [sampleItem], search_time_ms := 5,
    total_found := 1, status := "success", error_message := none }

/-- A concrete failed document search result (the adapter caught its own
exception). -/
def failDoc : SourceSearchResult :=
  { source_type := .documents, results := [], search_time_ms := 3,
    total_found := 0, status := "failed", error_message := some "boom" }

/-- A concrete single-source request. -/
def reqDocs : MultiSourceQueryRequest :=
  { question := "q", user_role := .engineer, data_sources := [.documents],
    document_filter := none, top_k_per_source := 3,
    enable_web_search := false, web_search_query := none,
    combine_results := true }

/-- A concrete response used to instantiate the advanced post-processing
theorem. -/
def respSample : MultiSourceQueryResponse :=
  { answer := "ans", confidence := 8 / 10, sources := [sampleItem],
    query_time_ms := 7, model_used := "m",
    sources_by_type := [(.documents, 1)], search_strategy := "balanced",
    total_sources_searched := 1 }

/-! ## General lemmas about the validation engine -/

/-- The adjusted confidence is the raw confidence times 0.5 when
hallucination risk is high, times 0.7 when the source-consistency check
failed. -/
theorem confidence_adjusted_eq (question answer : String)
    (sources : List QSource) (c : ℚ) :
    (validate_answer question answer sources c).confidence_adjusted =
      (if (check_hallucination answer).risk_level = .high then c * (5 / 10) else c) *
      (if (validate_source_consistency answer sources).is_consistent then 1
       else (7 / 10)) := by
  by_cases h1 : (check_hallucination answer).risk_level = .high <;>
    by_cases h2 : (validate_source_consistency answer sources).is_consistent <;>
      simp [validate_answer, h1, h2]

/-- The risk level of `check_hallucination` as a function of the number of
matched indicator patterns. -/
theorem risk_level_by_count (answer : String) :
    (check_hallucination answer).risk_level =
      (if 3 ≤ (check_hallucination answer).indicators_found.length then .high
       else if 2 ≤ (check_hallucination answer).indicators_found.length then .medium
       else .low) := by
  unfold check_hallucination
  simp only
  set n := (hallucination_indicators.filter (fun p => patSearchCI p answer)).length with hn
  have h1 : ((6 / 10 : ℚ) ≤ (n : ℚ) * (2 / 10)) ↔ 3 ≤ n := by
    rw [show (6 / 10 : ℚ) = 3 * (2 / 10) by norm_num,
      mul_le_mul_right (by norm_num : (0 : ℚ) < 2 / 10)]
    exact_mod_cast Iff.rfl
  have h2 : ((3 / 10 : ℚ) ≤ (n : ℚ) * (2 / 10)) ↔ 2 ≤ n := by
    constructor
    · intro h
      by_contra hlt
      push_neg at hlt
      interval_cases n <;> norm_num at h
    · intro h
      have : (2 : ℚ) ≤ (n : ℚ) := by exact_mod_cast h
      nlinarith
  by_cases h3 : 3 ≤ n
  · rw [if_pos (h1.mpr h3), if_pos h3]
  · rw [if_neg (fun h => h3 (h1.mp h)), if_neg h3]
    by_cases h4 : 2 ≤ n
    · rw [if_pos (h2.mpr h4), if_pos h4]
    · rw [if_neg (fun h => h4 (h2.mp h)), if_neg h4]

/-- The consistency score produced by `validate_source_consistency` is
non-negative. -/
theorem consistency_score_nonneg (answer : String) (sources : List QSource) :
    0 ≤ (validate_source_consistency answer sources).consistency_score := by
  unfold validate_source_consistency
  split
  · norm_num
  · dsimp only
    split
    · split
      · exact div_nonneg (by positivity) (by positivity)
      · norm_num
    · norm_num

/-- Projection: the hallucination details of `validate_answer`. -/
theorem validate_answer_hallucination (question answer : String)
    (sources : List QSource) (c : ℚ) :
    (validate_answer question answer sources c).hallucination =
      check_hallucination answer := rfl

/-- Projection: the source-consistency details of `validate_answer`. -/
theorem validate_answer_source_consistency (question answer : String)
    (sources : List QSource) (c : ℚ) :
    (validate_answer question answer sources c).source_consistency =
      validate_source_consistency answer sources := rfl

/-- Projection: the basic-validation details of `validate_answer`. -/
theorem validate_answer_basic (question answer : String)
    (sources : List QSource) (c : ℚ) :
    (validate_answer question answer sources c).basic =
      validate_basic_answer answer := rfl

/-- Projection: the confidence-keyword details of `validate_answer`. -/
theorem validate_answer_confidence_keywords (question answer : String)
    (sources : List QSource) (c : ℚ) :
    (validate_answer question answer sources c).confidence_keywords =
      analyze_confidence_keywords answer := rfl

/-- Projection: `is_valid` is decided by the basic check alone. -/
theorem validate_answer_is_valid (question answer : String)
    (sources : List QSource) (c : ℚ) :
    (validate_answer question answer sources c).is_valid =
      (validate_basic_answer answer).is_valid := rfl

/-- Projection: the quality score is the composite of the four checks. -/
theorem validate_answer_quality_score (question answer : String)
    (sources : List QSource) (c : ℚ) :
    (validate_answer question answer sources c).quality_score =
      calculate_quality_score (validate_basic_answer answer)
        (check_hallucination answer)
        (validate_source_consistency answer sources)
        (analyze_confidence_keywords answer) := rfl

/-- The coverage comparison against 0.3 as a natural-number comparison. -/
theorem coverage_lt_iff (k n : ℕ) (hn : 0 < n) :
    ((k : ℚ) / (n : ℚ) < 3 / 10) ↔ 10 * k < 3 * n := by
  rw [div_lt_iff₀ (by exact_mod_cast hn)]
  constructor
  · intro h
    have h10 : (10 : ℚ) * k < 3 * n := by nlinarith
    exact_mod_cast h10
  · intro h
    have h10 : (10 : ℚ) * k < 3 * n := by exact_mod_cast h
    nlinarith

/-- `validate_source_consistency` with its rational comparison replaced by
the equivalent natural-number comparison `10·overlap < 3·|answer_words|`,
so that concrete instances can be evaluated. -/
theorem validate_source_consistency_eq (answer : String)
    (sources : List QSource) :
    validate_source_consistency answer sources =
      (if sources.isEmpty then
        { is_consistent := false, consistency_score := 0, source_coverage := 0 }
      else if (wordList answer).isEmpty || (sourceWords sources).isEmpty then
        { is_consistent := true, consistency_score := 1, source_coverage := 0 }
      else
        (let k :=
          ((wordList answer).filter
            (fun w => (sourceWords sources).contains w)).length
         let n := (wordList answer).length
         if 10 * k < 3 * n then
          { is_consistent := false, consistency_score := (k : ℚ) / (n : ℚ),
            source_coverage := (k : ℚ) / (n : ℚ) }
         else
          { is_consistent := true, consistency_score := 1,
            source_coverage := (k : ℚ) / (n : ℚ) })) := by
  unfold validate_source_consistency
  cases hempty : sources.isEmpty with
  | true => simp
  | false =>
    simp only [Bool.false_eq_true, if_false]
    cases haw : (wordList answer).isEmpty with
    | true => simp [haw]
    | false =>
      cases hsw : (sourceWords sources).isEmpty with
      | true => simp [haw, hsw]
      | false =>
        simp only [Bool.not_false, Bool.and_self, if_true, Bool.or_self,
          Bool.false_eq_true, if_false]
        set k := ((wordList answer).filter
          (fun w => (sourceWords sources).contains w)).length with hk
        set n := (wordList answer).length with hn
        have hnpos : 0 < n := by
          rw [hn]
          cases hw : wordList answer with
          | nil => rw [hw] at haw; simp at haw
          | cons a t => simp [hw]
        have hiff := coverage_lt_iff k n hnpos
        by_cases hlt : 10 * k < 3 * n
        · rw [if_pos (hiff.mpr hlt), if_pos hlt]
        · rw [if_neg (fun h => hlt (hiff.mp h)), if_neg hlt]

/-! ## Claim C10 -/

/-- C10: the raw confidence fed into quality validation by the combined
multi-source pipeline is the constant 0.8, independent of every request
field, so the response confidence is exactly one of 0.8 (no penalty),
0.56 (×0.7 inconsistency penalty), 0.4 (×0.5 high-hallucination penalty)
or 0.28 (both penalties). -/
theorem multi_source_confidence_constant (request : MultiSourceQueryRequest)
    (search_results : List SourceSearchResult) (answer model_used : String) :
    let resp := combine_and_generate_answer request search_results answer model_used
    resp.confidence =
      (validate_answer request.question answer
        ((((collectSources search_results).1.mergeSort scoreDesc).take 10).map
          (fun s => { content := some s.content }))
        (8 / 10)).confidence_adjusted
    ∧ (resp.confidence = 8 / 10 ∨ resp.confidence = 56 / 100 ∨
       resp.confidence = 4 / 10 ∨ resp.confidence = 28 / 100) := by
  intro resp
  have heq : resp.confidence =
      (validate_answer request.question answer
        ((((collectSources search_results).1.mergeSort scoreDesc).take 10).map
          (fun s => { content := some s.content }))
        (8 / 10)).confidence_adjusted := rfl
  refine ⟨heq, ?_⟩
  rw [heq, confidence_adjusted_eq]
  split <;> split <;> norm_num

/-! ## Claim C1 -/

/-- C1 counterexample: the answer "추정됩니다" matches exactly one
hallucination-indicator pattern, yet `validate_answer` (with a source that
fully covers the answer) reports risk level "low" — not at least
"medium" — and returns the raw confidence 0.8 unreduced, which is not
≤ 0.7 × 0.8. -/
theorem hedge_single_pattern_cex :
    (check_hallucination "추정됩니다").indicators_found = [.seq "추정" "됩니다"]
    ∧ (validate_answer "q" "추정됩니다" [{ content := some "추정됩니다" }]
        (8 / 10)).hallucination.risk_level = RiskLevel.low
    ∧ (validate_answer "q" "추정됩니다" [{ content := some "추정됩니다" }]
        (8 / 10)).confidence_adjusted = 8 / 10
    ∧ ¬ ((8 / 10 : ℚ) ≤ (7 / 10) * (8 / 10)) := by
  have hlen : (check_hallucination "추정됩니다").indicators_found.length = 1 := by
    decide
  have h1 : (check_hallucination "추정됩니다").risk_level = RiskLevel.low := by
    rw [risk_level_by_count]
    norm_num [hlen]
  have h2 : validate_source_consistency "추정됩니다"
      [{ content := some "추정됩니다" }] = ⟨true, 1, 1⟩ := by
    rw [validate_source_consistency_eq]
    norm_num +decide [show wordList "추정됩니다" = ["추정됩니다"] from by decide,
      show sourceWords [({ content := some "추정됩니다" } : QSource)] =
        ["추정됩니다"] from by decide]
  refine ⟨by decide, ?_, ?_, by norm_num⟩
  · rw [validate_answer_hallucination]
    exact h1
  · rw [confidence_adjusted_eq, h1, h2]
    norm_num +decide

/-- C1 (amended): a single hallucination-indicator match leaves the risk
level at "low"; at least two distinct matches are needed for "medium" and
at least three for "high"; and the only hallucination-driven confidence
penalty is ×0.5 at level "high" (the ×0.7 factor comes from source
inconsistency alone). -/
theorem hallucination_risk_and_penalty (question answer : String)
    (sources : List QSource) (c : ℚ) :
    ((check_hallucination answer).indicators_found.length ≤ 1 →
      (validate_answer question answer sources c).hallucination.risk_level =
        RiskLevel.low)
    ∧ (2 ≤ (check_hallucination answer).indicators_found.length →
      (validate_answer question answer sources c).hallucination.risk_level ≠
        RiskLevel.low)
    ∧ (3 ≤ (check_hallucination answer).indicators_found.length →
      (validate_answer question answer sources c).hallucination.risk_level =
        RiskLevel.high)
    ∧ (validate_answer question answer sources c).confidence_adjusted =
      (if (validate_answer question answer sources c).hallucination.risk_level =
          RiskLevel.high then c * (5 / 10) else c) *
      (if (validate_answer question answer sources
          c).source_consistency.is_consistent then 1 else (7 / 10)) := by
  rw [validate_answer_hallucination, validate_answer_source_consistency,
    risk_level_by_count]
  refine ⟨?_, ?_, ?_, ?_⟩
  · intro h
    rw [if_neg (by omega), if_neg (by omega)]
  · intro h
    by_cases h3 : 3 ≤ (check_hallucination answer).indicators_found.length
    · rw [if_pos h3]
      simp
    · rw [if_neg h3, if_pos h]
      simp
  · intro h
    rw [if_pos h]
  · rw [confidence_adjusted_eq, risk_level_by_count]

/-! ## Claim C2 -/

/-- C2 counterexample: for the answer "alpha beta" against one source
containing only "alpha", the word-overlap ratio is 1/2, but the quality
score is 0.95 — the code uses consistency score 1.0 (the check passed),
not the ratio, so the claimed composite 0.4 + 0.3 + 0.2×(1/2) + 0.05 =
0.85 is wrong. -/
theorem quality_score_ratio_cex :
    (validate_answer "q" "alpha beta" [{ content := some "alpha" }]
      (8 / 10)).source_consistency.source_coverage = 1 / 2
    ∧ (validate_answer "q" "alpha beta" [{ content := some "alpha" }]
        (8 / 10)).quality_score = 19 / 20
    ∧ ((19 / 20 : ℚ) ≠
        min 1 ((4 / 10) + (3 / 10) + (2 / 10) * (1 / 2) + (5 / 100))) := by
  have h2 : validate_source_consistency "alpha beta"
      [{ content := some "alpha" }] = ⟨true, 1, 1 / 2⟩ := by
    rw [validate_source_consistency_eq]
    norm_num +decide [show wordList "alpha beta" = ["alpha", "beta"] from by decide,
      show sourceWords [({ content := some "alpha" } : QSource)] = ["alpha"]
        from by decide]
  have hh : (check_hallucination "alpha beta").risk_level = RiskLevel.low := by
    rw [risk_level_by_count]
    norm_num [show (check_hallucination "alpha beta").indicators_found.length = 0
      from by decide]
  refine ⟨?_, ?_, ?_⟩
  · rw [validate_answer_source_consistency, h2]
  · rw [validate_answer_quality_score]
    unfold calculate_quality_score
    rw [h2, hh]
    norm_num +decide [show (validate_basic_answer "alpha beta").is_valid = true
        from by decide,
      show (analyze_confidence_keywords "alpha beta").confidence_level =
        ConfLevel.medium from by decide,
      min_eq_right (by norm_num : (19 / 20 : ℚ) ≤ 1)]
  · rw [min_eq_right (by norm_num : ((4 / 10 : ℚ) + 3 / 10 + 2 / 10 * (1 / 2) +
      5 / 100) ≤ 1)]
    norm_num

/-- C2 (amended): the quality score is the fixed composite
0.4×basic + {0.3, 0.15, 0}[hallucination] + 0.2×consistency_score +
{0.1, 0.05, 0}[confidence keywords], clamped into [0, 1] — where
`consistency_score` is not always the word-overlap ratio: it is 1 whenever
the consistency check passed and equals the stored `source_coverage`
whenever it failed (0 for empty sources). -/
theorem quality_score_formula (question answer : String)
    (sources : List QSource) (c : ℚ) :
    (validate_answer question answer sources c).quality_score =
      min 1
        ((if (validate_basic_answer answer).is_valid then (4 / 10 : ℚ) else 0) +
         (match (check_hallucination answer).risk_level with
          | RiskLevel.low => (3 / 10 : ℚ)
          | RiskLevel.medium => 15 / 100
          | RiskLevel.high => 0) +
         (2 / 10) * (validate_source_consistency answer sources).consistency_score +
         (match (analyze_confidence_keywords answer).confidence_level with
          | ConfLevel.high => (1 / 10 : ℚ)
          | ConfLevel.medium => 5 / 100
          | ConfLevel.low => 0))
    ∧ 0 ≤ (validate_answer question answer sources c).quality_score
    ∧ (validate_answer question answer sources c).quality_score ≤ 1
    ∧ (sources = [] →
        (validate_source_consistency answer sources).consistency_score = 0)
    ∧ ((validate_source_consistency answer sources).is_consistent = true →
        (validate_source_consistency answer sources).consistency_score = 1)
    ∧ ((validate_source_consistency answer sources).is_consistent = false →
        (validate_source_consistency answer sources).consistency_score =
          (validate_source_consistency answer sources).source_coverage) := by
  refine ⟨rfl, ?_, ?_, ?_, ?_, ?_⟩
  · rw [validate_answer_quality_score]
    unfold calculate_quality_score
    have hb : (0 : ℚ) ≤
        (if (validate_basic_answer answer).is_valid then (4 / 10 : ℚ) else 0) := by
      split <;> norm_num
    have hh : (0 : ℚ) ≤
        (match (check_hallucination answer).risk_level with
         | RiskLevel.low => (3 / 10 : ℚ)
         | RiskLevel.medium => 15 / 100
         | RiskLevel.high => 0) := by
      cases (check_hallucination answer).risk_level <;> norm_num
    have hs : (0 : ℚ) ≤
        (2 / 10) * (validate_source_consistency answer sources).consistency_score :=
      mul_nonneg (by norm_num) (consistency_score_nonneg answer sources)
    have hc : (0 : ℚ) ≤
        (match (analyze_confidence_keywords answer).confidence_level with
         | ConfLevel.high => (1 / 10 : ℚ)
         | ConfLevel.medium => 5 / 100
         | ConfLevel.low => 0) := by
      cases (analyze_confidence_keywords answer).confidence_level <;> norm_num
    exact le_min (by norm_num) (by linarith)
  · rw [validate_answer_quality_score]
    unfold calculate_quality_score
    exact min_le_left _ _
  · intro h
    subst h
    rfl
  · rw [validate_source_consistency_eq]
    split
    · intro h
      simp at h
    · split
      · intro _
        rfl
      · dsimp only
        split <;> intro h
        · simp at h
        · rfl
  · rw [validate_source_consistency_eq]
    split
    · intro _
      rfl
    · split
      · intro h
        simp at h
      · dsimp only
        split <;> intro h
        · rfl
        · simp at h

/-! ## Claim C6 -/

/-- C6 counterexample: the answer "alpha beta gamma" with the non-empty
source list [{content := "ab"}] has word-overlap 0 — coverage 0 < 0.3 —
yet the consistency check passes (the source word set is empty, so the
coverage branch is never reached), the consistency score is 1, and the
confidence is returned unmultiplied (0.8, not 0.8 × 0.7). -/
theorem source_consistency_empty_words_cex :
    ((wordList "alpha beta gamma").filter
      (fun w => (sourceWords [({ content := some "ab" } : QSource)]).contains w)).length = 0
    ∧ (validate_answer "q" "alpha beta gamma" [{ content := some "ab" }]
        (8 / 10)).source_consistency.is_consistent = true
    ∧ (validate_answer "q" "alpha beta gamma" [{ content := some "ab" }]
        (8 / 10)).source_consistency.consistency_score = 1
    ∧ (validate_answer "q" "alpha beta gamma" [{ content := some "ab" }]
        (8 / 10)).confidence_adjusted = 8 / 10
    ∧ ((8 / 10 : ℚ) ≠ (8 / 10) * (7 / 10)) := by
  have h2 : validate_source_consistency "alpha beta gamma"
      [{ content := some "ab" }] = ⟨true, 1, 0⟩ := by
    rw [validate_source_consistency_eq]
    norm_num +decide [show sourceWords [({ content := some "ab" } : QSource)] = []
      from by decide]
  have hh : (check_hallucination "alpha beta gamma").risk_level =
      RiskLevel.low := by
    rw [risk_level_by_count]
    norm_num [show (check_hallucination "alpha beta gamma").indicators_found.length = 0
      from by decide]
  refine ⟨by decide, ?_, ?_, ?_, by norm_num⟩
  · rw [validate_answer_source_consistency, h2]
  · rw [validate_answer_source_consistency, h2]
  · rw [confidence_adjusted_eq, h2, hh]
    norm_num +decide

/-- C6 (amended): with empty sources the check reports inconsistent with
score 0.  With non-empty sources and both word sets non-empty, the stored
coverage is |answer_words ∩ source_words| / |answer_words| and the check
fails exactly when that coverage is < 0.3, in which case (and only then,
besides empty sources) the confidence is multiplied by 0.7; if either word
set is empty the check passes with score 1 and coverage 0. -/
theorem source_consistency_spec (question answer : String)
    (sources : List QSource) (c : ℚ) :
    (sources = [] →
      (validate_answer question answer sources c).source_consistency =
        ⟨false, 0, 0⟩)
    ∧ (sources ≠ [] → wordList answer ≠ [] → sourceWords sources ≠ [] →
        (validate_answer question answer sources c).source_consistency.source_coverage =
          (((wordList answer).filter
            (fun w => (sourceWords sources).contains w)).length : ℚ) /
            ((wordList answer).length : ℚ)
        ∧ ((validate_answer question answer sources c).source_consistency.is_consistent = false ↔
            (((wordList answer).filter
              (fun w => (sourceWords sources).contains w)).length : ℚ) /
              ((wordList answer).length : ℚ) < 3 / 10))
    ∧ (sources ≠ [] → (wordList answer = [] ∨ sourceWords sources = []) →
        (validate_answer question answer sources c).source_consistency =
          ⟨true, 1, 0⟩)
    ∧ ((validate_answer question answer sources c).source_consistency.is_consistent = false →
        (validate_answer question answer sources c).confidence_adjusted =
          (if (check_hallucination answer).risk_level = RiskLevel.high then
            c * (5 / 10) else c) * (7 / 10)) := by
  rw [validate_answer_source_consistency]
  refine ⟨?_, ?_, ?_, ?_⟩
  · intro h
    subst h
    rfl
  · intro hs haw hsw
    have hlen : 0 < (wordList answer).length := by
      cases hw : wordList answer with
      | nil => exact absurd hw haw
      | cons a t => simp [hw]
    rw [validate_source_consistency_eq,
      if_neg (by simp [List.isEmpty_iff, hs]),
      if_neg (by simp [List.isEmpty_iff, haw, hsw])]
    dsimp only
    constructor
    · split <;> rfl
    · rw [coverage_lt_iff _ _ hlen]
      split <;> rename_i hcond
      · exact iff_of_true rfl hcond
      · exact iff_of_false (by simp) hcond
  · intro hs hempty
    rw [validate_source_consistency_eq,
      if_neg (by simp [List.isEmpty_iff, hs]),
      if_pos (by rcases hempty with h | h <;> simp [List.isEmpty_iff, h])]
  · intro h
    rw [confidence_adjusted_eq, h]
    simp
/-! ## Lemmas about the orchestration and fusion layer -/

/-- Membership in the evidence accumulated by the collection loop. -/
theorem mem_foldl_collectStep_fst (rs : List SourceSearchResult)
    (acc : List MultiSourceInfo × List (DataSource × Nat)) (x : MultiSourceInfo) :
    x ∈ (rs.foldl collectStep acc).1 ↔
      x ∈ acc.1 ∨ ∃ r ∈ rs, r.status = "success" ∧ x ∈ r.results := by
  induction rs generalizing acc with
  | nil => simp
  | cons r t ih =>
    rw [List.foldl_cons, ih]
    unfold collectStep
    by_cases h : r.status = "success"
    · rw [if_pos h]
      simp only [List.mem_append, List.exists_mem_cons_iff, h, true_and]
      tauto
    · rw [if_neg h]
      simp only [List.exists_mem_cons_iff, h, false_and, false_or]

/-- A key occurs in `upsert l k v` iff it is the inserted key or was
already present. -/
theorem mem_upsert_key (l : List (DataSource × Nat)) (k k' : DataSource)
    (v' : Nat) :
    (∃ v, (k, v) ∈ upsert l k' v') ↔ k = k' ∨ ∃ v, (k, v) ∈ l := by
  induction l with
  | nil => simp [upsert]
  | cons p t ih =>
    obtain ⟨a, b⟩ := p
    unfold upsert
    by_cases h : a = k'
    · subst h
      rw [if_pos rfl]
      simp only [List.mem_cons, Prod.mk.injEq]
      constructor
      · rintro ⟨v, ⟨hk, _⟩ | hv⟩
        · exact Or.inl hk
        · exact Or.inr ⟨v, Or.inr hv⟩
      · rintro (rfl | ⟨v, ⟨hk, hv⟩ | hv⟩)
        · exact ⟨v', Or.inl ⟨rfl, rfl⟩⟩
        · exact ⟨v', Or.inl ⟨hk, rfl⟩⟩
        · exact ⟨v, Or.inr hv⟩
    · rw [if_neg h]
      simp only [List.mem_cons, Prod.mk.injEq]
      constructor
      · rintro ⟨v, ⟨hk, hv⟩ | hv⟩
        · exact Or.inr ⟨v, Or.inl ⟨hk, hv⟩⟩
        · rcases (ih.mp ⟨v, hv⟩) with hk | ⟨v2, hv2⟩
          · exact Or.inl hk
          · exact Or.inr ⟨v2, Or.inr hv2⟩
      · rintro (rfl | ⟨v, ⟨hk, hv⟩ | hv⟩)
        · obtain ⟨v, hv⟩ := ih.mpr (Or.inl rfl)
          exact ⟨v, Or.inr hv⟩
        · exact ⟨v, Or.inl ⟨hk, hv⟩⟩
        · obtain ⟨v2, hv2⟩ := ih.mpr (Or.inr ⟨v, hv⟩)
          exact ⟨v2, Or.inr hv2⟩

/-- A key occurs in the per-type counts accumulated by the collection loop
iff it was already present or some success result carries it. -/
theorem mem_foldl_collectStep_snd (rs : List SourceSearchResult)
    (acc : List MultiSourceInfo × List (DataSource × Nat)) (k : DataSource) :
    (∃ v, (k, v) ∈ (rs.foldl collectStep acc).2) ↔
      (∃ v, (k, v) ∈ acc.2) ∨ ∃ r ∈ rs, r.status = "success" ∧ r.source_type = k := by
  induction rs generalizing acc with
  | nil => simp
  | cons r t ih =>
    rw [List.foldl_cons, ih]
    unfold collectStep
    by_cases h : r.status = "success"
    · rw [if_pos h]
      simp only [List.exists_mem_cons_iff, h, true_and]
      rw [mem_upsert_key]
      constructor
      · rintro (⟨hk | hacc⟩ | ht)
        · exact Or.inr (Or.inl hk.symm)
        · exact Or.inl hacc
        · exact Or.inr (Or.inr ht)
      · rintro (hacc | hk | ht)
        · exact Or.inl (Or.inr hacc)
        · exact Or.inl (Or.inl hk.symm)
        · exact Or.inr ht
    · rw [if_neg h]
      simp only [List.exists_mem_cons_iff, h, false_and, false_or]

/-- `scoreDesc` is transitive. -/
theorem scoreDesc_trans (a b c : MultiSourceInfo) :
    scoreDesc a b → scoreDesc b c → scoreDesc a c := by
  simp only [scoreDesc, decide_eq_true_eq]
  exact fun h1 h2 => le_trans h2 h1

/-- `scoreDesc` is total. -/
theorem scoreDesc_total (a b : MultiSourceInfo) :
    scoreDesc a b || scoreDesc b a := by
  simp only [scoreDesc, Bool.or_eq_true, decide_eq_true_eq]
  exact le_total b.relevance_score a.relevance_score

/-- The selected top sources of the combined response, unfolded. -/
theorem combine_sources_eq (request : MultiSourceQueryRequest)
    (search_results : List SourceSearchResult) (answer model_used : String) :
    (combine_and_generate_answer request search_results answer model_used).sources =
      ((collectSources search_results).1.mergeSort scoreDesc).take 10 := rfl

/-- Every selected source of the combined response is evidence of some
success result. -/
theorem mem_combine_sources (request : MultiSourceQueryRequest)
    (search_results : List SourceSearchResult) (answer model_used : String)
    (s : MultiSourceInfo)
    (hmem : s ∈ (combine_and_generate_answer request search_results answer
      model_used).sources) :
    ∃ r ∈ search_results, r.status = "success" ∧ s ∈ r.results := by
  rw [combine_sources_eq] at hmem
  have h1 : s ∈ (collectSources search_results).1.mergeSort scoreDesc :=
    List.mem_of_mem_take hmem
  rw [List.mem_mergeSort] at h1
  have h2 := (mem_foldl_collectStep_fst search_results ([], []) s).mp h1
  simpa using h2

/-! ## Claim C3 -/

/-- C3: if among the per-source task outcomes exactly position `i` raised
an exception (with non-empty description `msg`) and every other position
returned a `status="success"` result, then the orchestrator returns one
result per requested source, in request order: position `i` carries
`status="failed"`, `error_message = msg`, no evidence and zero search time,
and every other position carries its adapter's success result.  The
conversion is total — no exception escapes. -/
theorem orchestrator_single_failure_isolated
    (sources : List DataSource) (outcomes : List TaskOutcome)
    (hlen : outcomes.length = sources.length)
    (i : Nat) (msg : String) (hmsg : msg ≠ "")
    (hexn : outcomes[i]? = some (.exn msg))
    (hok : ∀ j, j < sources.length → j ≠ i →
      ∃ r, outcomes[j]? = some (.ok r) ∧ r.status = "success") :
    (execute_multi_source_search sources outcomes).length = sources.length
    ∧ (∃ src, sources[i]? = some src ∧
        (execute_multi_source_search sources outcomes)[i]? = some
          { source_type := src, results := [], search_time_ms := 0,
            total_found := 0, status := "failed", error_message := some msg })
    ∧ (∀ j, j < sources.length → j ≠ i →
        ∃ r, outcomes[j]? = some (.ok r) ∧
          (execute_multi_source_search sources outcomes)[j]? = some r ∧
          r.status = "success") := by
  have hi : i < outcomes.length := by
    by_contra hge
    rw [List.getElem?_eq_none (Nat.le_of_not_lt hge)] at hexn
    exact Option.noConfusion hexn
  have hi2 : i < sources.length := hlen ▸ hi
  refine ⟨?_, ?_, ?_⟩
  · simp [execute_multi_source_search, List.length_zip, hlen]
  · refine ⟨sources[i], List.getElem?_eq_getElem hi2, ?_⟩
    have hzip : (sources.zip outcomes)[i]? = some (sources[i], .exn msg) :=
      List.getElem?_zip_eq_some.mpr ⟨List.getElem?_eq_getElem hi2, hexn⟩
    rw [execute_multi_source_search, List.getElem?_map, hzip]
    rfl
  · intro j hj hne
    obtain ⟨r, hr, hst⟩ := hok j hj hne
    refine ⟨r, hr, ?_, hst⟩
    have hzip : (sources.zip outcomes)[j]? = some (sources[j], .ok r) :=
      List.getElem?_zip_eq_some.mpr ⟨List.getElem?_eq_getElem hj, hr⟩
    rw [execute_multi_source_search, List.getElem?_map, hzip]
    rfl

/-- C3 witness: three requested sources, the middle task raising "boom",
the others succeeding. -/
theorem orchestrator_single_failure_isolated_wit :
    (execute_multi_source_search [.documents, .database, .web_search]
      [.ok succDoc, .exn "boom", .ok succDoc]).length =
      ([DataSource.documents, .database, .web_search]).length
    ∧ (∃ src, ([DataSource.documents, .database, .web_search])[1]? = some src ∧
        (execute_multi_source_search [.documents, .database, .web_search]
          [.ok succDoc, .exn "boom", .ok succDoc])[1]? = some
          { source_type := src, results := [], search_time_ms := 0,
            total_found := 0, status := "failed", error_message := some "boom" })
    ∧ (∀ j, j < ([DataSource.documents, .database, .web_search]).length → j ≠ 1 →
        ∃ r, ([TaskOutcome.ok succDoc, .exn "boom", .ok succDoc])[j]? =
            some (.ok r) ∧
          (execute_multi_source_search [.documents, .database, .web_search]
            [.ok succDoc, .exn "boom", .ok succDoc])[j]? = some r ∧
          r.status = "success") :=
  orchestrator_single_failure_isolated
    [.documents, .database, .web_search]
    [.ok succDoc, .exn "boom", .ok succDoc]
    rfl 1 "boom" (by decide) rfl
    (by
      intro j hj hne
      have hj3 : j < 3 := by simpa using hj
      interval_cases j
      · exact ⟨succDoc, rfl, rfl⟩
      · exact absurd rfl hne
      · exact ⟨succDoc, rfl, rfl⟩)

/-! ## Claim C4 -/

/-- C4: whenever at least one source result succeeded, the combined
response's source list is sorted by `relevance_score` descending, every
entry is evidence of some `status="success"` result, and at most 10
entries are returned. -/
theorem combined_sources_sorted_subset_capped
    (request : MultiSourceQueryRequest)
    (search_results : List SourceSearchResult) (answer model_used : String)
    (hsucc : ∃ r ∈ search_results, r.status = "success") :
    List.Pairwise (fun a b => b.relevance_score ≤ a.relevance_score)
      (combine_and_generate_answer request search_results answer
        model_used).sources
    ∧ (∀ s ∈ (combine_and_generate_answer request search_results answer
        model_used).sources,
        ∃ r ∈ search_results, r.status = "success" ∧ s ∈ r.results)
    ∧ (combine_and_generate_answer request search_results answer
        model_used).sources.length ≤ 10 := by
  refine ⟨?_, ?_, ?_⟩
  · rw [combine_sources_eq]
    have hsorted := List.sorted_mergeSort scoreDesc_trans
      scoreDesc_total (collectSources search_results).1
    have htake := hsorted.sublist (List.take_sublist 10 _)
    exact htake.imp (fun h => by simpa [scoreDesc] using h)
  · intro s hs
    exact mem_combine_sources request search_results answer model_used s hs
  · rw [combine_sources_eq, List.length_take]
    exact min_le_left _ _

/-- C4 witness: a single successful document result. -/
theorem combined_sources_sorted_subset_capped_wit :
    List.Pairwise (fun a b => b.relevance_score ≤ a.relevance_score)
      (combine_and_generate_answer reqDocs [succDoc] "ans" "m").sources
    ∧ (∀ s ∈ (combine_and_generate_answer reqDocs [succDoc] "ans" "m").sources,
        ∃ r ∈ [succDoc], r.status = "success" ∧ s ∈ r.results)
    ∧ (combine_and_generate_answer reqDocs [succDoc] "ans" "m").sources.length ≤ 10 :=
  combined_sources_sorted_subset_capped reqDocs [succDoc] "ans" "m"
    ⟨succDoc, List.mem_singleton.mpr rfl, rfl⟩

/-! ## Claim C5 -/

/-- C5: with source weights and a (non-negative) minimum relevance
threshold `t`, every returned item of the advanced post-processing equals
an original item with only its `relevance_score` multiplied by its
source's weight, and no returned item has weighted score below `t` (the
threshold is applied to the already-weighted scores). -/
theorem advanced_weights_threshold (w : SourceWeight) (t : ℚ)
    (resp : MultiSourceQueryResponse)
    (hw : 0 ≤ w.documents ∧ 0 ≤ w.database ∧ 0 ≤ w.web_search)
    (hs : ∀ s ∈ resp.sources, 0 ≤ s.relevance_score)
    (ht : 0 ≤ t) :
    (∀ s ∈ (advanced_post_process (some w) t resp).sources,
      ∃ orig ∈ resp.sources,
        s = { orig with
          relevance_score := orig.relevance_score * weightFor w orig.source_type })
    ∧ (∀ s ∈ (advanced_post_process (some w) t resp).sources,
        ¬ s.relevance_score < t) := by
  have hmem : ∀ s, s ∈ apply_source_weights w resp.sources →
      ∃ orig ∈ resp.sources,
        s = { orig with
          relevance_score := orig.relevance_score * weightFor w orig.source_type } := by
    intro s hsmem
    unfold apply_source_weights at hsmem
    rw [List.mem_mergeSort] at hsmem
    obtain ⟨orig, ho, heq⟩ := List.mem_map.mp hsmem
    exact ⟨orig, ho, heq.symm⟩
  have hnn : ∀ s, s ∈ apply_source_weights w resp.sources →
      0 ≤ s.relevance_score := by
    intro s hsmem
    obtain ⟨orig, ho, heq⟩ := hmem s hsmem
    rw [heq]
    obtain ⟨h1, h2, h3⟩ := hw
    refine mul_nonneg (hs orig ho) ?_
    cases horig : orig.source_type <;> simp only [weightFor]
    · exact h1
    · exact h2
    · exact h3
  unfold advanced_post_process
  by_cases hpos : 0 < t
  · rw [if_pos hpos]
    refine ⟨?_, ?_⟩ <;> intro s hsmem <;>
      obtain ⟨hsm, hle⟩ := List.mem_filter.mp hsmem
    · exact hmem s hsm
    · rw [decide_eq_true_eq] at hle
      exact not_lt.mpr hle
  · rw [if_neg hpos]
    have ht0 : t = 0 := le_antisymm (le_of_not_lt hpos) ht
    refine ⟨?_, ?_⟩ <;> intro s hsmem
    · exact hmem s hsmem
    · rw [ht0]
      exact not_lt.mpr (hnn s hsmem)

/-- C5 witness: one item, uniform weights 1/2, threshold 0.3. -/
theorem advanced_weights_threshold_wit :
    (∀ s ∈ (advanced_post_process (some ⟨1 / 2, 1 / 2, 1 / 2⟩) (3 / 10)
        respSample).sources,
      ∃ orig ∈ respSample.sources,
        s = { orig with
          relevance_score :=
            orig.relevance_score *
              weightFor ⟨1 / 2, 1 / 2, 1 / 2⟩ orig.source_type })
    ∧ (∀ s ∈ (advanced_post_process (some ⟨1 / 2, 1 / 2, 1 / 2⟩) (3 / 10)
        respSample).sources,
        ¬ s.relevance_score < 3 / 10) :=
  advanced_weights_threshold ⟨1 / 2, 1 / 2, 1 / 2⟩ (3 / 10) respSample
    (by norm_num)
    (by
      intro s hsmem
      rw [show respSample.sources = [sampleItem] from rfl,
        List.mem_singleton] at hsmem
      subst hsmem
      norm_num [sampleItem])
    (by norm_num)

/-! ## Claim C7 -/

/-- C7 counterexample: a query whose only result failed yields an empty
`sources_by_type` — the failed source is omitted entirely, not reported
with count zero as the claim asserts. -/
theorem sources_by_type_omits_failed_cex :
    (combine_and_generate_answer reqDocs [failDoc] "ans" "m").sources_by_type = []
    ∧ (DataSource.documents, 0) ∉
        (combine_and_generate_answer reqDocs [failDoc] "ans" "m").sources_by_type := by
  refine ⟨rfl, ?_⟩
  rw [show (combine_and_generate_answer reqDocs [failDoc] "ans"
    "m").sources_by_type = [] from rfl]
  exact List.not_mem_nil _

/-- C7 (amended): only `status="success"` results contribute evidence to
fusion, and a source type appears in the per-type counts iff some success
result carries it — failed or disabled sources are omitted from the counts
altogether, not reported as zero. -/
theorem sources_by_type_success_only (request : MultiSourceQueryRequest)
    (search_results : List SourceSearchResult) (answer model_used : String)
    (k : DataSource) :
    ((∃ v, (k, v) ∈ (combine_and_generate_answer request search_results answer
        model_used).sources_by_type) ↔
      ∃ r ∈ search_results, r.status = "success" ∧ r.source_type = k)
    ∧ (∀ s ∈ (combine_and_generate_answer request search_results answer
        model_used).sources,
        ∃ r ∈ search_results, r.status = "success" ∧ s ∈ r.results) := by
  refine ⟨?_, ?_⟩
  · have hby : (combine_and_generate_answer request search_results answer
        model_used).sources_by_type = (collectSources search_results).2 := rfl
    rw [hby]
    have h := mem_foldl_collectStep_snd search_results ([], []) k
    simpa using h
  · intro s hs
    exact mem_combine_sources request search_results answer model_used s hs

/-! ## Claim C8 -/

/-- C8 counterexample: for a single-source request the heuristic label is
"fast", but the combined response reports "balanced" — the response's
`search_strategy` is hard-coded and never receives the heuristic value. -/
theorem search_strategy_label_cex :
    determine_search_strategy reqDocs = "fast"
    ∧ (combine_and_generate_answer reqDocs [succDoc] "ans" "m").search_strategy =
        "balanced"
    ∧ ("fast" : String) ≠ "balanced" := by
  refine ⟨rfl, rfl, by decide⟩

/-- C8 (amended): `_determine_search_strategy` implements the documented
heuristic (single source → "fast", web search → "comprehensive", small
cap → "fast", else "balanced"), but the combined response always reports
the constant "balanced" regardless of the request. -/
theorem search_strategy_constant_balanced (request : MultiSourceQueryRequest)
    (search_results : List SourceSearchResult) (answer model_used : String) :
    (combine_and_generate_answer request search_results answer
      model_used).search_strategy = "balanced"
    ∧ (request.data_sources.length = 1 →
        determine_search_strategy request = "fast")
    ∧ (request.data_sources.length ≠ 1 →
        DataSource.web_search ∈ request.data_sources →
        determine_search_strategy request = "comprehensive")
    ∧ (request.data_sources.length ≠ 1 →
        DataSource.web_search ∉ request.data_sources →
        request.top_k_per_source ≤ 3 →
        determine_search_strategy request = "fast")
    ∧ (request.data_sources.length ≠ 1 →
        DataSource.web_search ∉ request.data_sources →
        ¬ request.top_k_per_source ≤ 3 →
        determine_search_strategy request = "balanced") := by
  refine ⟨rfl, ?_, ?_, ?_, ?_⟩
  · intro h1
    unfold determine_search_strategy
    rw [if_pos h1]
  · intro h1 h2
    unfold determine_search_strategy
    rw [if_neg h1, if_pos h2]
  · intro h1 h2 h3
    unfold determine_search_strategy
    rw [if_neg h1, if_neg h2, if_pos h3]
  · intro h1 h2 h3
    unfold determine_search_strategy
    rw [if_neg h1, if_neg h2, if_neg h3]

/-! ## Claim C9 -/

/-- C9: `run_selftest` marks a case passed iff (expected-valid ∧ is_valid ∧
quality ≥ 0.5) or (expected-invalid ∧ (¬is_valid ∨ quality < 0.5)), returns
`total_tests` equal to the number of cases, and `overall_score =
passed/total` with 0 for an empty list. -/
theorem run_selftest_spec (test_cases : List TestCase) :
    (run_selftest test_cases).total_tests = test_cases.length
    ∧ (run_selftest test_cases).test_results.length = test_cases.length
    ∧ (∀ (i : ℕ) (tc : TestCase), test_cases[i]? = some tc →
        ∃ tr : TestResult,
          (run_selftest test_cases).test_results[i]? = some tr ∧
          (tr.passed = true ↔
            ((tc.expected_validation = true ∧
              (validate_answer tc.question tc.actual_answer tc.sources
                tc.confidence).is_valid = true ∧
              (5 / 10 : ℚ) ≤ (validate_answer tc.question tc.actual_answer
                tc.sources tc.confidence).quality_score) ∨
             (tc.expected_validation = false ∧
              ((validate_answer tc.question tc.actual_answer tc.sources
                  tc.confidence).is_valid = false ∨
               (validate_answer tc.question tc.actual_answer tc.sources
                 tc.confidence).quality_score < (5 / 10 : ℚ))))))
    ∧ (run_selftest test_cases).passed =
        ((run_selftest test_cases).test_results.filter
          (fun t => t.passed)).length
    ∧ (run_selftest test_cases).overall_score =
        (if 0 < test_cases.length then
          ((run_selftest test_cases).passed : ℚ) / (test_cases.length : ℚ)
         else 0) := by
  refine ⟨rfl, by simp [run_selftest], ?_, rfl, rfl⟩
  intro i tc htc
  have hres : (run_selftest test_cases).test_results[i]? =
      (test_cases[i]?).map (fun tc =>
        let v := validate_answer tc.question tc.actual_answer tc.sources
          tc.confidence
        ({ test_id := i + 1, passed := selftestPass tc v,
           validation := v } : TestResult)) := by
    rw [show (run_selftest test_cases).test_results =
      test_cases.mapIdx (fun i tc =>
        let v := validate_answer tc.question tc.actual_answer tc.sources
          tc.confidence
        ({ test_id := i + 1, passed := selftestPass tc v,
           validation := v } : TestResult)) from rfl]
    exact List.getElem?_mapIdx
  rw [hres, htc]
  refine ⟨{ test_id := i + 1,
            passed := selftestPass tc (validate_answer tc.question
              tc.actual_answer tc.sources tc.confidence),
            validation := validate_answer tc.question tc.actual_answer
              tc.sources tc.confidence }, rfl, ?_⟩
  show selftestPass tc _ = true ↔ _
  unfold selftestPass
  cases he : tc.expected_validation with
  | true =>
    rw [if_pos rfl]
    simp only [Bool.and_eq_true, decide_eq_true_eq]
    constructor
    · rintro ⟨h1, h2⟩
      exact Or.inl ⟨trivial, h1, h2⟩
    · rintro (⟨_, h1, h2⟩ | ⟨hfalse, _⟩)
      · exact ⟨h1, h2⟩
      · exact Bool.noConfusion hfalse
  | false =>
    rw [if_neg Bool.false_ne_true]
    simp only [Bool.or_eq_true, Bool.not_eq_true', decide_eq_true_eq]
    constructor
    · rintro (h1 | h2)
      · exact Or.inr ⟨trivial, Or.inl h1⟩
      · exact Or.inr ⟨trivial, Or.inr h2⟩
    · rintro (⟨htrue, _⟩ | ⟨_, h1 | h2⟩)
      · exact Bool.noConfusion htrue
      · exact Or.inl h1
      · exact Or.inr h2

end RagCore
